import Mathlib

/-!
Shallow embedding of `src-tauri/icons/create_icon.py`.

The script draws a stylized terminal-window icon with PIL and saves it at a
fixed list of sizes.  We model:
  * colors as RGBA quadruples of naturals;
  * the in-memory image as its mode, dimensions and a pixel function;
  * each PIL drawing primitive by the set of pixels it covers (rectangles,
    ellipses and rounded rectangles by their ideal geometry over exact
    rationals (`Q` below); text
    coverage is supplied by a `FontEnv`, since glyph rasterisation depends on
    the font actually loaded);
  * the font-loading environment (`FontEnv`) records which truetype paths
    load, what `font.getlength` returns (if it works at all), and which
    pixels text drawing inks;
  * `main` by the ordered list of save events it performs, with an optional
    per-file failure oracle for the exception-propagation claims, and by the
    directory listing / stdout lines it produces.
-/

namespace PH7Icon

/-- An RGBA color, one byte per channel, as in PIL color tuples. -/
structure Color where
  r : Nat
  g : Nat
  b : Nat
  a : Nat
deriving DecidableEq

/-- A PIL font handle: either a truetype font loaded from a path at a pixel
size, or the library's built-in default font. -/
inductive Font where
  | truetype (path : String) (sz : Nat)
  | default
deriving DecidableEq

/-- An exact rational coordinate: numerator over positive denominator.  The
operations below never normalize, so every computation reduces inside the
kernel; all denominators built here are positive. -/
structure Q where
  num : Int
  den : Nat

instance : Add Q :=
  ⟨fun a b => ⟨a.num * (b.den : Int) + b.num * (a.den : Int), a.den * b.den⟩⟩

instance : Sub Q :=
  ⟨fun a b => ⟨a.num * (b.den : Int) - b.num * (a.den : Int), a.den * b.den⟩⟩

instance : Mul Q := ⟨fun a b => ⟨a.num * b.num, a.den * b.den⟩⟩

instance (n : Nat) : OfNat Q n := ⟨⟨(n : Int), 1⟩⟩

/-- The rational `n / 1`. -/
def Q.ofInt (n : Int) : Q := ⟨n, 1⟩

/-- Halving, as the Python `/ 2` on exact values. -/
def Q.half (a : Q) : Q := ⟨a.num, a.den * 2⟩

/-- `a ≤ b` by cross multiplication (denominators are positive). -/
def Q.leb (a b : Q) : Bool := decide (a.num * (b.den : Int) ≤ b.num * (a.den : Int))

/-- `a < b` by cross multiplication (denominators are positive). -/
def Q.ltb (a b : Q) : Bool := decide (a.num * (b.den : Int) < b.num * (a.den : Int))

/-- The environment the script runs in: which font files load, what
`font.getlength` returns (`none` models the call raising, which the script
catches), and which pixels a text-drawing call inks. -/
structure FontEnv where
  loadOk : String → Bool
  getlengthRes : Font → String → Option Q
  textCover : Font → Q → Q → String → Int → Int → Bool

/-- `ImageFont.truetype(path, sz)`: succeeds iff the environment can load the
font file at `path`. -/
def truetypeLoad (env : FontEnv) (path : String) (sz : Nat) : Option Font :=
  if env.loadOk path then some (Font.truetype path sz) else none

def monacoPath : String := "/System/Library/Fonts/Monaco.ttc"

def dejavuPath : String := "/usr/share/fonts/truetype/dejavu/DejaVuSansMono.ttf"

/-- Lines 48-55 of the script: try Monaco, then DejaVuSansMono, then
`ImageFont.load_default()`; each failure is swallowed by a bare `except`. -/
def selectFont (env : FontEnv) (sz : Nat) : Font :=
  match truetypeLoad env monacoPath sz with
  | some f => f
  | none =>
    match truetypeLoad env dejavuPath sz with
    | some f => f
    | none => Font.default

/-- Line 46 of the script: `font_size = max(12, size // 25)`. -/
def font_size (size : Nat) : Nat := max 12 (size / 25)

/-- Pixel coverage of `draw.rectangle([x0, y0, x1, y1])`: the closed box. -/
def rectCover (x0 y0 x1 y1 : Q) (px py : Int) : Bool :=
  Q.leb x0 (Q.ofInt px) && Q.leb (Q.ofInt px) x1 &&
  Q.leb y0 (Q.ofInt py) && Q.leb (Q.ofInt py) y1

/-- Membership in the closed disk of radius `r` about `(cx, cy)`. -/
def inCircle (cx cy r : Q) (px py : Int) : Bool :=
  Q.leb ((Q.ofInt px - cx) * (Q.ofInt px - cx) + (Q.ofInt py - cy) * (Q.ofInt py - cy)) (r * r)

/-- Pixel coverage of `draw.ellipse([x0, y0, x1, y1])`: the filled ellipse
inscribed in the box. -/
def ellipseCover (x0 y0 x1 y1 : Q) (px py : Int) : Bool :=
  rectCover x0 y0 x1 y1 px py &&
  (let cx := (x0 + x1).half
   let cy := (y0 + y1).half
   let rx := (x1 - x0).half
   let ry := (y1 - y0).half
   Q.leb (((Q.ofInt px - cx) * ry) * ((Q.ofInt px - cx) * ry)
     + ((Q.ofInt py - cy) * rx) * ((Q.ofInt py - cy) * rx)) ((rx * ry) * (rx * ry)))

/-- Pixel coverage of a filled `draw.rounded_rectangle([x0, y0, x1, y1],
radius := r)`: the box, with each corner clipped to the quarter disk. -/
def roundedRectCover (x0 y0 x1 y1 r : Q) (px py : Int) : Bool :=
  rectCover x0 y0 x1 y1 px py &&
  (!(Q.ltb (Q.ofInt px) (x0 + r) && Q.ltb (Q.ofInt py) (y0 + r)) ||
    inCircle (x0 + r) (y0 + r) r px py) &&
  (!(Q.ltb (x1 - r) (Q.ofInt px) && Q.ltb (Q.ofInt py) (y0 + r)) ||
    inCircle (x1 - r) (y0 + r) r px py) &&
  (!(Q.ltb (Q.ofInt px) (x0 + r) && Q.ltb (y1 - r) (Q.ofInt py)) ||
    inCircle (x0 + r) (y1 - r) r px py) &&
  (!(Q.ltb (x1 - r) (Q.ofInt px) && Q.ltb (y1 - r) (Q.ofInt py)) ||
    inCircle (x1 - r) (y1 - r) r px py)

/-- One drawing call: the pixels it covers and the fill color it writes. -/
structure DrawOp where
  cover : Int → Int → Bool
  color : Color

/-- The fully transparent pixel `(0, 0, 0, 0)` of `Image.new`. -/
def transparent : Color := ⟨0, 0, 0, 0⟩

def bg_color : Color := ⟨26, 27, 38, 255⟩

def border_color : Color := ⟨80, 250, 123, 255⟩

def text_color : Color := ⟨248, 248, 242, 255⟩

def cursor_color : Color := ⟨80, 250, 123, 255⟩

def title_bar_color : Color := ⟨40, 42, 54, 255⟩

def prompt_text : String := "$ "

def command_text : String := "pH7Console --ai"

def ai_text : String := "🤖 AI Ready"

def logo_text : String := "pH7"

/-- The ordered drawing calls of `create_terminal_icon(size)`, lines 7-91 of
the script, with every Python `//` rendered as `Nat` division. -/
def drawOps (env : FontEnv) (size : Nat) : List DrawOp :=
  let s : Q := Q.ofInt (size : Int)
  let margin : Q := Q.ofInt ((size / 10 : Nat) : Int)
  let radiusMain : Q := Q.ofInt ((size / 20 : Nat) : Int)
  let title_bar_height : Q := Q.ofInt ((size / 8 : Nat) : Int)
  let radiusTitle : Q := Q.ofInt ((size / 30 : Nat) : Int)
  let control_size : Q := Q.ofInt ((size / 30 : Nat) : Int)
  let halfControl : Q := Q.ofInt ((size / 30 / 2 : Nat) : Int)
  let control_y : Q := margin + Q.ofInt ((size / 8 / 2 : Nat) : Int)
  let content_y : Q := margin + title_bar_height + 10
  let line_height : Q := Q.ofInt ((size / 20 : Nat) : Int)
  let fsN : Nat := font_size size
  let fs : Q := Q.ofInt (fsN : Int)
  let font := selectFont env fsN
  let prompt_width : Q :=
    (env.getlengthRes font prompt_text).getD
      (Q.ofInt (prompt_text.length : Int) * fs * Q.mk 3 5)
  let y_pos : Q := content_y
  let total_width : Q :=
    (env.getlengthRes font (prompt_text ++ command_text)).getD
      (Q.ofInt ((prompt_text ++ command_text).length : Int) * fs * Q.mk 3 5)
  let cursor_x : Q := margin + 20 + total_width + 5
  let ai_y : Q := y_pos + line_height + 10
  let logo_y : Q := ai_y + line_height + 10
  let logo_font : Font :=
    match truetypeLoad env monacoPath (fsN + 4) with
    | some f => f
    | none => font
  [ ⟨roundedRectCover margin margin (s - margin) (s - margin) radiusMain, bg_color⟩,
    ⟨fun px py =>
      roundedRectCover margin margin (s - margin) (s - margin) radiusMain px py &&
      !(roundedRectCover (margin + 3) (margin + 3) (s - margin - 3) (s - margin - 3)
          (radiusMain - 3) px py), border_color⟩,
    ⟨roundedRectCover (margin + 3) (margin + 3) (s - margin - 3)
        (margin + 3 + title_bar_height) radiusTitle, title_bar_color⟩,
    ⟨ellipseCover (margin + 20) (control_y - halfControl) (margin + 20 + control_size)
        (control_y + halfControl), ⟨255, 85, 85, 255⟩⟩,
    ⟨ellipseCover (margin + 20 + control_size * 2) (control_y - halfControl)
        (margin + 20 + control_size * 3) (control_y + halfControl), ⟨255, 184, 108, 255⟩⟩,
    ⟨ellipseCover (margin + 20 + control_size * 4) (control_y - halfControl)
        (margin + 20 + control_size * 5) (control_y + halfControl), ⟨80, 250, 123, 255⟩⟩,
    ⟨env.textCover font (margin + 20) y_pos prompt_text, cursor_color⟩,
    ⟨env.textCover font (margin + 20 + prompt_width) y_pos command_text, text_color⟩,
    ⟨rectCover cursor_x y_pos (cursor_x + 2) (y_pos + fs), cursor_color⟩,
    ⟨env.textCover font (margin + 20) ai_y ai_text, cursor_color⟩,
    ⟨env.textCover logo_font (margin + 20) logo_y logo_text, border_color⟩ ]

/-- An in-memory PIL image: mode, dimensions and the pixel function. -/
structure Img where
  mode : String
  width : Nat
  height : Nat
  px : Int → Int → Color

/-- Apply a list of drawing calls, in order, to an initially transparent
canvas: a pixel shows the color of the last call covering it. -/
def applyOps (ops : List DrawOp) (px py : Int) : Color :=
  ops.foldl (fun c op => if op.cover px py then op.color else c) transparent

/-- `create_terminal_icon(size)`: a fresh `size × size` RGBA canvas, fully
transparent, with the drawing calls of lines 7-91 applied in order. -/
def create_terminal_icon (env : FontEnv) (size : Nat) : Img :=
  ⟨"RGBA", size, size, applyOps (drawOps env size)⟩

/-- Coverage of the terminal-window rounded rectangle of lines 17-19
(`terminal_rect` with `radius = size // 20`). -/
def terminalRectCover (size : Nat) (px py : Int) : Bool :=
  roundedRectCover (Q.ofInt ((size / 10 : Nat) : Int)) (Q.ofInt ((size / 10 : Nat) : Int))
    (Q.ofInt (size : Int) - Q.ofInt ((size / 10 : Nat) : Int))
    (Q.ofInt (size : Int) - Q.ofInt ((size / 10 : Nat) : Int))
    (Q.ofInt ((size / 20 : Nat) : Int)) px py

/-- Line 97 of the script: `sizes = [16, 32, 64, 128, 256, 512]`. -/
def sizes : List Nat := [16, 32, 64, 128, 256, 512]

/-- The f-string `f'icon_\x7bsize\x7dx\x7bsize\x7d.png'` of line 103. -/
def iconName (size : Nat) : String :=
  "icon_" ++ toString size ++ "x" ++ toString size ++ ".png"

/-- The extra Tauri filenames saved for particular sizes, lines 106-112. -/
def extraSaves (size : Nat) : List String :=
  if size = 32 then ["32x32.png"]
  else if size = 128 then ["128x128.png", "128x128@2x.png"]
  else if size = 512 then ["icon.png"]
  else []

/-- All filenames one loop iteration saves, in the order `main` saves them. -/
def saveNames (size : Nat) : List String := iconName size :: extraSaves size

/-- The save calls `main` performs when nothing fails, in order: filename,
the in-memory image passed to `icon.save`, and the explicit format string. -/
def mainSaves (env : FontEnv) : List (String × Img × String) :=
  sizes.flatMap (fun size =>
    let icon := create_terminal_icon env size
    (saveNames size).map (fun f => (f, icon, "PNG")))

/-- The filenames `main` writes, in execution order. -/
def mainSavedFiles : List String := sizes.flatMap saveNames

/-- The image `main` saved under a given filename, if any. -/
def savedImg (env : FontEnv) (f : String) : Option Img :=
  ((mainSaves env).find? (fun e => e.1 == f)).map (fun e => e.2.1)

/-- The format string `main` passed when saving a given filename, if any. -/
def savedFmt (env : FontEnv) (f : String) : Option String :=
  ((mainSaves env).find? (fun e => e.1 == f)).map (fun e => e.2.2)

/-- Observable events of a run of `main`: a call to `create_terminal_icon`
for a size, or a completed `icon.save` of a filename. -/
inductive Ev where
  | draw (size : Nat)
  | save (f : String)
deriving DecidableEq

/-- Run the save calls of one loop iteration under a failure oracle
(`canSave f = false` models `icon.save(f, 'PNG')` raising).  Returns the
completed save events and the filename whose save raised, if any; `main`
has no handler, so a raise ends the iteration at once. -/
def runSaves (canSave : String → Bool) : List String → List Ev × Option String
  | [] => ([], none)
  | f :: rest =>
    if canSave f then
      let r := runSaves canSave rest
      (Ev.save f :: r.1, r.2)
    else ([], some f)

/-- The loop of lines 99-112 under a failure oracle: each iteration draws its
icon, then saves its files; an uncaught save error stops the whole loop. -/
def mainRunFrom (canSave : String → Bool) : List Nat → List Ev × Option String
  | [] => ([], none)
  | size :: rest =>
    let r := runSaves canSave (saveNames size)
    match r.2 with
    | none =>
      let r2 := mainRunFrom canSave rest
      (Ev.draw size :: (r.1 ++ r2.1), r2.2)
    | some f => (Ev.draw size :: r.1, some f)

/-- A run of `main` under a failure oracle: the events performed and the
propagated error (the failing filename), if any. -/
def mainRun (canSave : String → Bool) : List Ev × Option String :=
  mainRunFrom canSave sizes

/-- The complete event trace of a failure-free run of `main`. -/
def mainFullTrace : List Ev :=
  sizes.flatMap (fun size => Ev.draw size :: (saveNames size).map Ev.save)

/-- Truncate an event trace at the first save the oracle fails: completed
events stay, everything from the failing save on is gone. -/
def takeUntilFail (canSave : String → Bool) : List Ev → List Ev
  | [] => []
  | Ev.draw s :: rest => Ev.draw s :: takeUntilFail canSave rest
  | Ev.save f :: rest =>
    if canSave f then Ev.save f :: takeUntilFail canSave rest else []

/-- Writing a file into a directory listing: overwriting keeps the listing,
a new name is appended. -/
def writeFile (dir : List String) (f : String) : List String :=
  if f ∈ dir then dir else dir ++ [f]

/-- The working-directory listing after `main` has written all its files,
starting from the listing `initDir`. -/
def mainFinalDir (env : FontEnv) (initDir : List String) : List String :=
  (mainSaves env).foldl (fun d e => writeFile d e.1) initDir

/-- Python's `f.endswith('.png')`, on the string's character list. -/
def endsWithPng (f : String) : Bool :=
  ([ '.', 'p', 'n', 'g' ] : List Char).isSuffixOf f.data

/-- The lines `main` prints, lines 114-118: two banner lines, then one
indented line per `.png` entry of `os.listdir('.')`. -/
def mainOutput (env : FontEnv) (initDir : List String) : List String :=
  ("Icons created successfully!") :: ("Files created:") ::
    ((mainFinalDir env initDir).filter (fun f => endsWithPng f)).map
      (fun f => "  " ++ f)

/-- Nominal glyph advance of a font, in pixels: the truetype pixel size, or
the default bitmap font's nominal 11 pixels. -/
def fontPx (f : Font) : Q :=
  match f with
  | Font.truetype _ sz => Q.ofInt (sz : Int)
  | Font.default => 11

/-- A concrete environment: every font path loads, `getlength` works and
reports a fixed-width advance of `0.6 · fontsize` per character, and a text
call inks exactly its nominal bounding box. -/
def idealEnv : FontEnv :=
  { loadOk := fun _ => true
  , getlengthRes := fun f t => some (Q.ofInt (t.length : Int) * fontPx f * Q.mk 3 5)
  , textCover := fun f x y t px py =>
      rectCover x y (x + Q.ofInt (t.length : Int) * fontPx f * Q.mk 3 5) (y + fontPx f) px py }

/-- A concrete environment in which no truetype font file loads and
`getlength` raises (so every fallback path of the script is taken). -/
def bareEnv : FontEnv :=
  { loadOk := fun _ => false
  , getlengthRes := fun _ _ => none
  , textCover := fun f x y t px py =>
      rectCover x y (x + Q.ofInt (t.length : Int) * fontPx f * Q.mk 3 5) (y + fontPx f) px py }

/-- Claim C1: for every positive size, `create_terminal_icon(size)` returns an
in-memory RGBA image whose width and height both equal `size`. -/
theorem c1_icon_is_square_rgba (env : FontEnv) (size : Nat) (_h : 0 < size) :
    (create_terminal_icon env size).width = size ∧
    (create_terminal_icon env size).height = size ∧
    (create_terminal_icon env size).mode = "RGBA" :=
  ⟨rfl, rfl, rfl⟩

/-- Witness for C1 at size 512. -/
theorem c1_icon_is_square_rgba_witness :
    0 < 512 ∧
    ((create_terminal_icon idealEnv 512).width = 512 ∧
     (create_terminal_icon idealEnv 512).height = 512 ∧
     (create_terminal_icon idealEnv 512).mode = "RGBA") :=
  ⟨by decide, c1_icon_is_square_rgba idealEnv 512 (by decide)⟩

/-- Claim C2: a successful run of `main` writes exactly the six size variants
plus the four renamed copies, in the loop's order, and no other file; the
written names are a permutation of the fixed list of ten filenames. -/
theorem c2_output_file_set (env : FontEnv) :
    (mainSaves env).map (fun e => e.1) = mainSavedFiles ∧
    mainSavedFiles = ["icon_16x16.png", "icon_32x32.png", "32x32.png", "icon_64x64.png",
      "icon_128x128.png", "128x128.png", "128x128@2x.png", "icon_256x256.png",
      "icon_512x512.png", "icon.png"] ∧
    List.Perm mainSavedFiles ["icon_16x16.png", "icon_32x32.png", "icon_64x64.png",
      "icon_128x128.png", "icon_256x256.png", "icon_512x512.png", "32x32.png",
      "128x128.png", "128x128@2x.png", "icon.png"] :=
  ⟨rfl, by decide, by decide⟩

/-- Witness for C2 at a concrete environment. -/
theorem c2_output_file_set_witness :
    (mainSaves idealEnv).map (fun e => e.1) = mainSavedFiles ∧
    mainSavedFiles = ["icon_16x16.png", "icon_32x32.png", "32x32.png", "icon_64x64.png",
      "icon_128x128.png", "128x128.png", "128x128@2x.png", "icon_256x256.png",
      "icon_512x512.png", "icon.png"] ∧
    List.Perm mainSavedFiles ["icon_16x16.png", "icon_32x32.png", "icon_64x64.png",
      "icon_128x128.png", "icon_256x256.png", "icon_512x512.png", "32x32.png",
      "128x128.png", "128x128@2x.png", "icon.png"] :=
  c2_output_file_set idealEnv

/-- Claim C4: font selection is total: Monaco is used whenever it loads,
otherwise DejaVuSansMono whenever it loads, otherwise the built-in default
font; both failures are swallowed, for every size and environment. -/
theorem c4_font_fallback (env : FontEnv) (sz : Nat) :
    (∀ f, truetypeLoad env monacoPath sz = some f → selectFont env sz = f) ∧
    (truetypeLoad env monacoPath sz = none →
      ∀ f, truetypeLoad env dejavuPath sz = some f → selectFont env sz = f) ∧
    (truetypeLoad env monacoPath sz = none → truetypeLoad env dejavuPath sz = none →
      selectFont env sz = Font.default) := by
  refine ⟨?_, ?_, ?_⟩
  · intro f h
    simp [selectFont, h]
  · intro h1 f h2
    simp [selectFont, h1, h2]
  · intro h1 h2
    simp [selectFont, h1, h2]

/-- Witness for C4: in an environment where no font file loads, both tiers
fail and the built-in default font is selected. -/
theorem c4_font_fallback_witness :
    (truetypeLoad bareEnv monacoPath 12 = none ∧ truetypeLoad bareEnv dejavuPath 12 = none) ∧
    selectFont bareEnv 12 = Font.default :=
  ⟨⟨rfl, rfl⟩, (c4_font_fallback bareEnv 12).2.2 rfl rfl⟩

/-- Claim C6: a failure-free run of `main` processes the sizes strictly in
the order 16, 32, 64, 128, 256, 512, fully drawing each icon and saving all
of that size's files before the next size is drawn. -/
theorem c6_sequential_order :
    mainRun (fun _ => true) = (mainFullTrace, none) ∧
    mainFullTrace =
      [Ev.draw 16, Ev.save ("icon_16x16.png"),
       Ev.draw 32, Ev.save ("icon_32x32.png"), Ev.save ("32x32.png"),
       Ev.draw 64, Ev.save ("icon_64x64.png"),
       Ev.draw 128, Ev.save ("icon_128x128.png"), Ev.save ("128x128.png"),
       Ev.save ("128x128@2x.png"),
       Ev.draw 256, Ev.save ("icon_256x256.png"),
       Ev.draw 512, Ev.save ("icon_512x512.png"), Ev.save ("icon.png")] := by
  constructor
  · decide
  · decide

/-- Claim C9: the text font size is `max(12, size // 25)`, hence never below
12 pixels; at size 16 it is 12 while proportional scaling would give 0. -/
theorem c9_font_size_floor :
    (∀ size : Nat, font_size size = max 12 (size / 25) ∧ 12 ≤ font_size size) ∧
    font_size 16 = 12 ∧ (16 / 25 : Nat) < 12 :=
  ⟨fun _ => ⟨rfl, Nat.le_max_left 12 _⟩, by decide, by decide⟩

/-- Claim C10: each renamed copy is saved from the same in-memory image as
its size variant, with the same format: `32x32.png` from the size-32 icon,
`128x128.png` and `128x128@2x.png` from the size-128 icon, and `icon.png`
from the size-512 icon. -/
theorem c10_renamed_copies_same_image (env : FontEnv) :
    (savedImg env ("32x32.png") = savedImg env ("icon_32x32.png") ∧
      savedFmt env ("32x32.png") = savedFmt env ("icon_32x32.png")) ∧
    (savedImg env ("128x128.png") = savedImg env ("icon_128x128.png") ∧
      savedFmt env ("128x128.png") = savedFmt env ("icon_128x128.png")) ∧
    (savedImg env ("128x128@2x.png") = savedImg env ("icon_128x128.png") ∧
      savedFmt env ("128x128@2x.png") = savedFmt env ("icon_128x128.png")) ∧
    (savedImg env ("icon.png") = savedImg env ("icon_512x512.png") ∧
      savedFmt env ("icon.png") = savedFmt env ("icon_512x512.png")) ∧
    savedImg env ("icon.png") = some (create_terminal_icon env 512) ∧
    savedFmt env ("icon.png") = some ("PNG") :=
  ⟨⟨rfl, rfl⟩, ⟨rfl, rfl⟩, ⟨rfl, rfl⟩, ⟨rfl, rfl⟩, rfl, rfl⟩

/-- Witness for C10 at a concrete environment. -/
theorem c10_renamed_copies_same_image_witness :
    savedImg idealEnv ("32x32.png") = savedImg idealEnv ("icon_32x32.png") :=
  (c10_renamed_copies_same_image idealEnv).1.1

theorem mapFst_mainSaves (env : FontEnv) :
    (mainSaves env).map (fun e => e.1) = mainSavedFiles := rfl

theorem foldl_writeFile_append (fs : List String) :
    ∀ ds : List String, (∀ f ∈ fs, f ∉ ds) → fs.Nodup → fs.foldl writeFile ds = ds ++ fs := by
  induction fs with
  | nil =>
    intro ds _ _
    simp
  | cons f rest ih =>
    intro ds hnot hnd
    have hf : f ∉ ds := hnot f (List.mem_cons_self f rest)
    have hwf : writeFile ds f = ds ++ [f] := by simp [writeFile, hf]
    have hnotin : ∀ g ∈ rest, g ∉ ds ++ [f] := by
      intro g hg hmem
      rcases List.mem_append.mp hmem with hgds | hgf
      · exact hnot g (List.mem_cons_of_mem f hg) hgds
      · have hgf2 : g = f := by simpa using hgf
        exact (List.nodup_cons.mp hnd).1 (hgf2 ▸ hg)
    calc (f :: rest).foldl writeFile ds = rest.foldl writeFile (writeFile ds f) := rfl
      _ = rest.foldl writeFile (ds ++ [f]) := by rw [hwf]
      _ = (ds ++ [f]) ++ rest := ih (ds ++ [f]) hnotin (List.nodup_cons.mp hnd).2
      _ = ds ++ (f :: rest) := by simp

/-- Claim C3 (amended): after the two banner lines, `main` prints one
indented line per `.png` entry of the final working-directory listing; when
no `.png` file pre-existed, those are exactly the ten files it created. -/
theorem c3_prints_png_listing (env : FontEnv) (initDir : List String)
    (h : ∀ f ∈ initDir, endsWithPng f = false) :
    mainOutput env initDir =
      ("Icons created successfully!") :: ("Files created:") ::
        mainSavedFiles.map (fun f => "  " ++ f) := by
  have hall : mainSavedFiles.all (fun f => endsWithPng f) = true := by decide
  have hnd : mainSavedFiles.Nodup := by decide
  have hnotin : ∀ f ∈ mainSavedFiles, f ∉ initDir := by
    intro f hf hfd
    have hpng : endsWithPng f = true := List.all_eq_true.mp hall f hf
    rw [h f hfd] at hpng
    exact Bool.noConfusion hpng
  have h1 : mainFinalDir env initDir = initDir ++ mainSavedFiles := by
    unfold mainFinalDir
    rw [show (fun (d : List String) (e : String × Img × String) => writeFile d e.1)
        = (fun d e => writeFile d ((fun x : String × Img × String => x.1) e)) from rfl]
    rw [← List.foldl_map, mapFst_mainSaves]
    exact foldl_writeFile_append mainSavedFiles initDir hnotin hnd
  have h2 : initDir.filter (fun f => endsWithPng f) = [] := by
    refine List.filter_eq_nil_iff.mpr ?_
    intro a ha
    simp [h a ha]
  have h3 : mainSavedFiles.filter (fun f => endsWithPng f) = mainSavedFiles := by decide
  unfold mainOutput
  rw [h1, List.filter_append, h2, h3, List.nil_append]

/-- Witness for C3 (amended): a directory with only a non-PNG entry. -/
theorem c3_prints_png_listing_witness :
    (∀ f ∈ (["notes.txt"] : List String), endsWithPng f = false) ∧
    mainOutput idealEnv (["notes.txt"]) =
      ("Icons created successfully!") :: ("Files created:") ::
        mainSavedFiles.map (fun f => "  " ++ f) :=
  ⟨by decide, c3_prints_png_listing idealEnv ["notes.txt"] (by decide)⟩

/-- Counterexample to C3 as stated: if the working directory already holds
`photo.png`, the lines printed after the banner include `photo.png`, which
is not one of the files `main` created. -/
theorem c3_counterexample :
    ("  photo.png") ∈ mainOutput idealEnv (["photo.png"]) ∧
    ("photo.png") ∉ mainSavedFiles := by
  constructor
  · decide
  · decide

theorem runSaves_eq (canSave : String → Bool) (fs : List String) :
    runSaves canSave fs =
      (takeUntilFail canSave (fs.map Ev.save), fs.find? (fun f => !(canSave f))) := by
  induction fs with
  | nil => rfl
  | cons f rest ih =>
    simp only [runSaves, List.map_cons, takeUntilFail, List.find?]
    cases h : canSave f with
    | true => simp [h, ih]
    | false => simp [h]

theorem find?_append_none {p : String → Bool} {a : List String}
    (h : a.find? p = none) (b : List String) : (a ++ b).find? p = b.find? p := by
  induction a with
  | nil => simp
  | cons x rest ih =>
    rw [List.find?_cons] at h
    cases hx : p x with
    | true => rw [hx] at h; exact Option.noConfusion h
    | false =>
      rw [hx] at h
      rw [List.cons_append, List.find?_cons, hx]
      exact ih h

theorem find?_append_some {p : String → Bool} {a : List String} {x : String}
    (h : a.find? p = some x) (b : List String) : (a ++ b).find? p = some x := by
  induction a with
  | nil => exact Option.noConfusion h
  | cons y rest ih =>
    rw [List.find?_cons] at h
    cases hy : p y with
    | true =>
      rw [hy] at h
      rw [List.cons_append, List.find?_cons, hy]
      exact h
    | false =>
      rw [hy] at h
      rw [List.cons_append, List.find?_cons, hy]
      exact ih h

theorem takeUntilFail_saves_all {canSave : String → Bool} {names : List String}
    (h : names.find? (fun f => !(canSave f)) = none) (b : List Ev) :
    takeUntilFail canSave (names.map Ev.save ++ b) =
      names.map Ev.save ++ takeUntilFail canSave b := by
  induction names with
  | nil => simp
  | cons f rest ih =>
    rw [List.find?_cons] at h
    cases hf : canSave f with
    | true =>
      rw [show (!(canSave f)) = false by rw [hf]; rfl] at h
      rw [List.map_cons, List.cons_append, takeUntilFail, hf]
      simp only [if_true, List.cons_append]
      rw [ih h]
    | false =>
      rw [show (!(canSave f)) = true by rw [hf]; rfl] at h
      exact Option.noConfusion h

theorem takeUntilFail_saves_id {canSave : String → Bool} {names : List String}
    (h : names.find? (fun f => !(canSave f)) = none) :
    takeUntilFail canSave (names.map Ev.save) = names.map Ev.save := by
  have h2 := takeUntilFail_saves_all h ([] : List Ev)
  simpa [takeUntilFail] using h2

theorem takeUntilFail_saves_stop {canSave : String → Bool} {names : List String} {x : String}
    (h : names.find? (fun f => !(canSave f)) = some x) (b : List Ev) :
    takeUntilFail canSave (names.map Ev.save ++ b) =
      takeUntilFail canSave (names.map Ev.save) := by
  induction names with
  | nil => exact Option.noConfusion h
  | cons f rest ih =>
    rw [List.find?_cons] at h
    cases hf : canSave f with
    | true =>
      rw [show (!(canSave f)) = false by rw [hf]; rfl] at h
      rw [List.map_cons, List.cons_append, takeUntilFail, takeUntilFail, hf]
      simp only [if_true]
      rw [ih h]
    | false =>
      rw [List.map_cons, List.cons_append, takeUntilFail, takeUntilFail, hf]
      simp

theorem mainRunFrom_eq (canSave : String → Bool) (szs : List Nat) :
    mainRunFrom canSave szs =
      (takeUntilFail canSave (szs.flatMap (fun s => Ev.draw s :: (saveNames s).map Ev.save)),
       (szs.flatMap saveNames).find? (fun f => !(canSave f))) := by
  induction szs with
  | nil => rfl
  | cons s rest ih =>
    rw [List.flatMap_cons, List.flatMap_cons, List.cons_append, takeUntilFail]
    simp only [mainRunFrom, runSaves_eq]
    cases hf : (saveNames s).find? (fun f => !(canSave f)) with
    | none =>
      simp only [ih]
      rw [takeUntilFail_saves_all hf, takeUntilFail_saves_id hf, find?_append_none hf]
    | some f =>
      rw [takeUntilFail_saves_stop hf, find?_append_some hf]

/-- Claim C5: `main` has no exception handler: a run under a save-failure
oracle performs exactly the failure-free event trace truncated at the first
failing save (so nothing after it, in particular no later size's drawing,
happens), and propagates exactly the first failing save's error. -/
theorem c5_save_error_propagates (canSave : String → Bool) :
    mainRun canSave =
      (takeUntilFail canSave mainFullTrace,
       mainSavedFiles.find? (fun f => !(canSave f))) :=
  mainRunFrom_eq canSave sizes

/-- Witness for C5: an oracle failing the save of `128x128.png`. -/
theorem c5_save_error_propagates_witness :
    mainRun (fun f => !(f == "128x128.png")) =
      (takeUntilFail (fun f => !(f == "128x128.png")) mainFullTrace,
       mainSavedFiles.find? (fun f => !(!(f == "128x128.png")))) :=
  c5_save_error_propagates (fun f => !(f == "128x128.png"))

/-- The edge length encoded in each output filename. -/
def expectedDim (f : String) : Nat :=
  if f = "icon_16x16.png" then 16
  else if f = "icon_32x32.png" ∨ f = "32x32.png" then 32
  else if f = "icon_64x64.png" then 64
  else if f = "icon_128x128.png" ∨ f = "128x128.png" ∨ f = "128x128@2x.png" then 128
  else if f = "icon_256x256.png" then 256
  else 512

/-- Claim C7: every save `main` performs passes the explicit `'PNG'` format
string and an RGBA image whose width and height equal the edge length the
filename stands for. -/
theorem c7_saved_png_dims (env : FontEnv) (f : String) (img : Img) (fmt : String)
    (h : (f, img, fmt) ∈ mainSaves env) :
    fmt = "PNG" ∧ img.mode = "RGBA" ∧
    img.width = expectedDim f ∧ img.height = expectedDim f := by
  have hlist : mainSaves env =
      [("icon_16x16.png", create_terminal_icon env 16, "PNG"),
       ("icon_32x32.png", create_terminal_icon env 32, "PNG"),
       ("32x32.png", create_terminal_icon env 32, "PNG"),
       ("icon_64x64.png", create_terminal_icon env 64, "PNG"),
       ("icon_128x128.png", create_terminal_icon env 128, "PNG"),
       ("128x128.png", create_terminal_icon env 128, "PNG"),
       ("128x128@2x.png", create_terminal_icon env 128, "PNG"),
       ("icon_256x256.png", create_terminal_icon env 256, "PNG"),
       ("icon_512x512.png", create_terminal_icon env 512, "PNG"),
       ("icon.png", create_terminal_icon env 512, "PNG")] := rfl
  rw [hlist] at h
  simp only [List.mem_cons, List.not_mem_nil, or_false, Prod.mk.injEq] at h
  rcases h with h | h | h | h | h | h | h | h | h | h <;>
    obtain ⟨rfl, rfl, rfl⟩ := h <;>
    exact ⟨rfl, rfl, rfl, rfl⟩

/-- Witness for C7: the first save of a concrete run. -/
theorem c7_saved_png_dims_witness :
    (("icon_16x16.png", create_terminal_icon idealEnv 16, "PNG") ∈ mainSaves idealEnv) ∧
    ("PNG" = "PNG" ∧ (create_terminal_icon idealEnv 16).mode = "RGBA" ∧
      (create_terminal_icon idealEnv 16).width = expectedDim ("icon_16x16.png") ∧
      (create_terminal_icon idealEnv 16).height = expectedDim ("icon_16x16.png")) := by
  have hmem : ("icon_16x16.png", create_terminal_icon idealEnv 16, "PNG") ∈ mainSaves idealEnv :=
    List.Mem.head _
  exact ⟨hmem, c7_saved_png_dims idealEnv _ _ _ hmem⟩

theorem foldl_paint_const (qx qy : Int) (ops : List DrawOp) :
    ∀ c : Color, (∀ op ∈ ops, op.cover qx qy = false) →
      ops.foldl (fun c op => if op.cover qx qy then op.color else c) c = c := by
  induction ops with
  | nil =>
    intro c _
    rfl
  | cons op rest ih =>
    intro c h
    have h0 : op.cover qx qy = false := h op (List.mem_cons_self op rest)
    have h1 : ∀ o ∈ rest, o.cover qx qy = false :=
      fun o ho => h o (List.mem_cons_of_mem op ho)
    rw [List.foldl_cons, if_neg (by simp [h0])]
    exact ih c h1

/-- Claim C8 (amended): the canvas starts fully transparent RGBA, so any
pixel covered by none of the drawing calls still reads `(0, 0, 0, 0)` in the
returned image. -/
theorem c8_undrawn_pixels_transparent (env : FontEnv) (size : Nat) (qx qy : Int)
    (h : ∀ op ∈ drawOps env size, op.cover qx qy = false) :
    (create_terminal_icon env size).px qx qy = transparent :=
  foldl_paint_const qx qy (drawOps env size) transparent h

/-- Witness for C8 (amended): pixel `(0, 0)` of the size-512 icon. -/
theorem c8_undrawn_pixels_transparent_witness :
    (∀ op ∈ drawOps idealEnv 512, op.cover 0 0 = false) ∧
    (create_terminal_icon idealEnv 512).px 0 0 = transparent :=
  ⟨by decide, c8_undrawn_pixels_transparent idealEnv 512 0 0 (by decide)⟩

/-- Counterexample to C8 as stated: at size 4096 the title bar's corner
(radius `size // 30`) protrudes past the terminal rectangle's more rounded
corner (radius `size // 20`): pixel `(460, 460)` lies outside the terminal
rounded rectangle yet carries the opaque title-bar color. -/
theorem c8_counterexample :
    0 < 4096 ∧ (0 : Int) ≤ 460 ∧ (460 : Int) < 4096 ∧
    terminalRectCover 4096 460 460 = false ∧
    (create_terminal_icon idealEnv 4096).px 460 460 = title_bar_color ∧
    title_bar_color.a = 255 := by
  refine ⟨by decide, by decide, by decide, by decide, by decide, by decide⟩

end PH7Icon
